import Mathlib

/-!
Verification of the reminiscer quote-sharing backend.

This development is a shallow embedding of the Go backend:
`internal/models` (SQLite-backed stores for users, groups and quotes),
`internal/handlers` (quote and group HTTP handlers) and
`internal/middleware` (JWT bearer-token authentication).
The SQLite database is modelled as an in-memory record of lists;
SQL queries become list operations (filter, sort, drop/take), `uuid.New`
becomes a fresh-id counter in the state, and `time.Now()` is a `now`
field of the state, constant over a single request.
-/

namespace Reminiscer

/-- Error codes from `internal/errors` (the Go string constants
`NOT_FOUND`, `ALREADY_EXISTS`, `INVALID_INPUT`, `UNAUTHORIZED`,
`FORBIDDEN`, `INVALID_TOKEN`, `INVALID_CREDENTIALS`, `DATABASE_ERROR`,
`INTERNAL_ERROR`, in order). -/
inductive ErrCode where
  | notFound
  | alreadyExists
  | invalidInput
  | unauthorized
  | forbidden
  | invalidToken
  | invalidCredentials
  | databaseError
  | internalError
deriving DecidableEq, Repr

/-- `errors.ReminiscerError`: a code together with a message. -/
structure ReminiscerError where
  code : ErrCode
  message : String
deriving DecidableEq, Repr

/-- `models.User` as stored in the `users` table; `password` holds the
bcrypt hash (column `hashed_password`). -/
structure User where
  id : String
  email : String
  username : String
  password : String
  authenticated : Bool
  createdAt : Nat
deriving DecidableEq, Repr

/-- `models.Group`: one membership row — a (group key, member) pair with
duplicated group display name. -/
structure Group where
  id : String
  groupID : String
  name : String
  memberID : String
  createdAt : Nat
  updatedAt : Nat
deriving DecidableEq, Repr

/-- `models.Quote`. -/
structure Quote where
  id : String
  text : String
  author : String
  uploaderID : String
  groupID : String
  createdAt : Nat
  updatedAt : Nat
deriving DecidableEq, Repr

/-- `models.QuoteFilter`.  The Go `int` fields are 64-bit machine
integers; they are modelled as `Int`, and the one arithmetic operation
performed on them — the offset computation in `SQLiteQuoteStore.List` —
wraps to 64 bits exactly as Go does (see `wrap64`). -/
structure QuoteFilter where
  author : String
  page : Int
  limit : Int
deriving DecidableEq, Repr

/-- The SQLite database: three tables plus a fresh-id supply (for
`uuid.New()`) and the current time (for `time.Now()`). -/
structure StoreState where
  users : List User
  groups : List Group
  quotes : List Quote
  nextId : Nat
  now : Nat
deriving DecidableEq, Repr

/-- Fresh row id, standing in for `uuid.New().String()`. -/
def StoreState.freshId (st : StoreState) : String :=
  "id-" ++ toString st.nextId

/-! ## User store (`internal/models/user_store.go`) -/

/-- `SQLiteUserStore.GetByID`. -/
def usersGetByID (st : StoreState) (id : String) : Except ReminiscerError User :=
  match st.users.find? (fun u => u.id == id) with
  | some u => .ok u
  | none => .error ⟨.notFound, "User not found"⟩

/-- `SQLiteUserStore.Authenticate`.  `verify hash password` stands for
`bcrypt.CompareHashAndPassword` succeeding; the bcrypt library is
external, so the comparison is a parameter. -/
def usersAuthenticate (verify : String → String → Bool) (st : StoreState)
    (email password : String) : Except ReminiscerError User :=
  match st.users.find? (fun u => u.email == email) with
  | none => .error ⟨.invalidCredentials, "Invalid email or password"⟩
  | some u =>
    if verify u.password password then .ok u
    else .error ⟨.invalidCredentials, "Invalid email or password"⟩

/-! ## Group store (`internal/models/group_store.go`) -/

/-- `ORDER BY created_at DESC` on membership rows. -/
def groupSortDesc (l : List Group) : List Group :=
  l.insertionSort (fun a b => b.createdAt ≤ a.createdAt)

/-- `SQLiteGroupStore.GetByGroupID`: all rows sharing the group key,
newest first; NotFound when the set is empty. -/
def groupsGetByGroupID (st : StoreState) (gid : String) :
    Except ReminiscerError (List Group) :=
  let rows := groupSortDesc (st.groups.filter (fun g => g.groupID == gid))
  if rows.isEmpty then .error ⟨.notFound, "No groups found"⟩
  else .ok rows

/-- `SQLiteGroupStore.GetByMemberID`. -/
def groupsGetByMemberID (st : StoreState) (mid : String) :
    Except ReminiscerError (List Group) :=
  let rows := groupSortDesc (st.groups.filter (fun g => g.memberID == mid))
  if rows.isEmpty then .error ⟨.notFound, "No groups found for member"⟩
  else .ok rows

/-- `SQLiteGroupStore.Create`: assigns an id and timestamps, inserts
the row. -/
def groupsCreateRow (st : StoreState) (gid nm mid : String) :
    Group × StoreState :=
  let g : Group := ⟨st.freshId, gid, nm, mid, st.now, st.now⟩
  (g, { st with groups := st.groups ++ [g], nextId := st.nextId + 1 })

/-- `SQLiteGroupStore.Update`: sets `name` and `updated_at` of the row
with the given id; NotFound when no row was affected. -/
def groupsUpdateRow (st : StoreState) (g : Group) :
    Except ReminiscerError StoreState :=
  if st.groups.any (fun x => x.id == g.id) then
    .ok { st with groups := st.groups.map (fun x =>
      if x.id == g.id then { x with name := g.name, updatedAt := st.now } else x) }
  else .error ⟨.notFound, "Group not found"⟩

/-! ## Quote store (`internal/models/quote_store.go`) -/

/-- `ORDER BY created_at DESC` on quotes. -/
def quoteSortDesc (l : List Quote) : List Quote :=
  l.insertionSort (fun a b => b.createdAt ≤ a.createdAt)

/-- The optional `WHERE author = ?` clause. -/
def quotesMatching (st : StoreState) (author : String) : List Quote :=
  if author == "" then st.quotes
  else st.quotes.filter (fun q => q.author == author)

/-- `SQLiteQuoteStore.Create`: assigns id and timestamps, inserts. -/
def quotesCreate (st : StoreState) (text author uploaderID gid : String) :
    Quote × StoreState :=
  let q : Quote := ⟨st.freshId, text, author, uploaderID, gid, st.now, st.now⟩
  (q, { st with quotes := st.quotes ++ [q], nextId := st.nextId + 1 })

/-- `SQLiteQuoteStore.GetByID`. -/
def quotesGetByID (st : StoreState) (id : String) : Except ReminiscerError Quote :=
  match st.quotes.find? (fun q => q.id == id) with
  | some q => .ok q
  | none => .error ⟨.notFound, "Quote not found"⟩

/-- `SQLiteQuoteStore.GetRandom`: uniform choice (`ORDER BY RANDOM()
LIMIT 1`) among the rows matching the optional author filter; the
random draw is the parameter `k`. -/
def quotesGetRandom (k : Nat) (st : StoreState) (f : QuoteFilter) :
    Except ReminiscerError Quote :=
  let rows := quotesMatching st f.author
  match rows.get? (k % rows.length) with
  | some q => .ok q
  | none => .error ⟨.notFound, "No quotes found"⟩

/-- Two's-complement wrap of a Go 64-bit `int`: reduce into
`[-2^63, 2^63)`.  (`Int.emod` with a positive modulus always lands in
`[0, 2^64)`, so the conditional picks the signed representative.) -/
def wrap64 (x : Int) : Int :=
  let r := x % (2 ^ 64 : Int)
  if r < 2 ^ 63 then r else r - 2 ^ 64

/-- `SQLiteQuoteStore.List`: clamps page (< 1 becomes 1) and limit
(< 1 becomes 10), orders by creation time descending, and returns the
window `LIMIT limit OFFSET (page-1)*limit`.  The offset is computed in
Go's wrapping 64-bit `int` arithmetic (the subtraction cannot wrap
since the page was just clamped to `≥ 1`, but the product can), and a
wrapped-negative offset reaching SQLite's OFFSET clause behaves as 0,
which `Int.toNat` captures. -/
def quotesList (st : StoreState) (f : QuoteFilter) :
    Except ReminiscerError (List Quote) :=
  let page := if f.page < 1 then 1 else f.page
  let limit := if f.limit < 1 then 10 else f.limit
  let offset := wrap64 ((page - 1) * limit)
  let rows := quoteSortDesc (quotesMatching st f.author)
  .ok ((rows.drop offset.toNat).take limit.toNat)

/-- `SQLiteQuoteStore.Update`: sets `text`, `author`, `updated_at` of
the row with the quote's id; NotFound when no row was affected.
Returns the stamped quote, matching the Go mutation of the passed
struct. -/
def quotesUpdate (st : StoreState) (q : Quote) :
    Except ReminiscerError (Quote × StoreState) :=
  let q' := { q with updatedAt := st.now }
  if st.quotes.any (fun x => x.id == q.id) then
    .ok (q', { st with quotes := st.quotes.map (fun x =>
      if x.id == q.id then { x with text := q.text, author := q.author, updatedAt := st.now } else x) })
  else .error ⟨.notFound, "Quote not found"⟩

/-- `SQLiteQuoteStore.Delete`: removes the row with the given id;
NotFound when no row was affected. -/
def quotesDelete (st : StoreState) (id : String) :
    Except ReminiscerError StoreState :=
  if st.quotes.any (fun x => x.id == id) then
    .ok { st with quotes := st.quotes.filter (fun x => !(x.id == id)) }
  else .error ⟨.notFound, "Quote not found"⟩

/-! ## Request/response types (`internal/handlers/types.go`,
`internal/api`) -/

/-- `handlers.CreateQuoteRequest`. -/
structure CreateQuoteRequest where
  text : String
  author : String
  groupID : String
deriving DecidableEq, Repr

/-- `handlers.UpdateQuoteRequest`. -/
structure UpdateQuoteRequest where
  text : String
  author : String
deriving DecidableEq, Repr

/-- `handlers.CreateGroupRequest`. -/
structure CreateGroupRequest where
  name : String
  groupID : String
  members : List String
deriving DecidableEq, Repr

/-- `handlers.UpdateGroupRequest`. -/
structure UpdateGroupRequest where
  name : String
  members : List String
deriving DecidableEq, Repr

/-- `handlers.ListQuotesParams` (query binding; the Go `int` fields
are 64-bit — a query value outside that range fails binding — and are
modelled as `Int`, with the offset arithmetic downstream wrapping via
`wrap64`). -/
structure ListQuotesParams where
  author : String
  page : Int
  limit : Int
deriving DecidableEq, Repr

/-- `c.Validate` on `CreateQuoteRequest`: all three fields
`validate:"required"`. -/
def validCreateQuote (r : CreateQuoteRequest) : Bool :=
  r.text != "" && r.author != "" && r.groupID != ""

/-- `c.Validate` on `UpdateQuoteRequest`. -/
def validUpdateQuote (r : UpdateQuoteRequest) : Bool :=
  r.text != "" && r.author != ""

/-- `c.Validate` on `CreateGroupRequest` (`members` has `min=1`). -/
def validCreateGroup (r : CreateGroupRequest) : Bool :=
  r.name != "" && r.groupID != "" && !r.members.isEmpty

/-- `c.Validate` on `UpdateGroupRequest`. -/
def validUpdateGroup (r : UpdateGroupRequest) : Bool :=
  r.name != "" && !r.members.isEmpty

/-- The HTTP response sent by a handler: `api.SendSuccess` carries a
status and a data payload, `api.SendError` a status, an error code and
a message. -/
inductive ApiResult (α : Type) where
  | success (status : Nat) (data : α)
  | failure (status : Nat) (code : ErrCode) (message : String)
deriving DecidableEq, Repr

/-- `handlers.QuoteResponse`: a quote plus its uploader's username. -/
structure QuoteResponse where
  id : String
  text : String
  author : String
  uploaderID : String
  groupID : String
  createdAt : Nat
  updatedAt : Nat
  uploader : String
deriving DecidableEq, Repr

/-- `handlers.GroupResponse`. -/
structure GroupResponse where
  id : String
  groupID : String
  name : String
  members : List String
  createdAt : Nat
  updatedAt : Nat
deriving DecidableEq, Repr

/-- The handlers' `getUsernameFn`: `Users().GetByID`, falling back to
`"Unknown"` on any error. -/
def lookupUsername (st : StoreState) (userID : String) : String :=
  match usersGetByID st userID with
  | .ok u => u.username
  | .error _ => "Unknown"

/-- `handlers.toQuoteResponse`. -/
def toQuoteResponse (q : Quote) (uploaderUsername : String) : QuoteResponse :=
  ⟨q.id, q.text, q.author, q.uploaderID, q.groupID, q.createdAt, q.updatedAt,
   uploaderUsername⟩

/-- `handlers.toGroupResponse`: nil for an empty row list, else the
first row's fields plus the member usernames. -/
def toGroupResponse (st : StoreState) (groups : List Group) :
    Option GroupResponse :=
  match groups with
  | [] => none
  | first :: _ =>
    some ⟨first.id, first.groupID, first.name,
      groups.map (fun g => lookupUsername st g.memberID),
      first.createdAt, first.updatedAt⟩

/-! ## Quote handlers (`internal/handlers/quotes.go`)

Each handler takes the user attached to the request context by the
middleware (`GetUserFromContext`, `none` when absent) and the current
store state, and returns the response together with the state after
the request. -/

/-- `QuoteHandler.Create`. -/
def quoteCreateHandler (user? : Option User) (req : CreateQuoteRequest)
    (st : StoreState) : ApiResult QuoteResponse × StoreState :=
  match user? with
  | none => (.failure 401 .unauthorized "Authentication required", st)
  | some user =>
    if !validCreateQuote req then
      (.failure 400 .invalidInput "Invalid request data", st)
    else
      match groupsGetByGroupID st req.groupID with
      | .error e =>
        if e.code = .notFound then (.failure 404 .notFound "Group not found", st)
        else (.failure 500 .databaseError "Failed to verify group", st)
      | .ok groups =>
        if groups.any (fun g => g.memberID == user.id) then
          let (q, st') := quotesCreate st req.text req.author user.id req.groupID
          (.success 201 (toQuoteResponse q user.username), st')
        else (.failure 403 .forbidden "Not a member of this group", st)

/-- The page clamp of `QuoteHandler.List`: `if params.Page < 1
{ params.Page = 1 }`. -/
def clampPage (page : Int) : Int :=
  if page < 1 then 1 else page

/-- The limit clamp of `QuoteHandler.List`: `if params.Limit < 1 ||
params.Limit > 50 { params.Limit = 10 }`. -/
def clampLimit (limit : Int) : Int :=
  if limit < 1 ∨ limit > 50 then 10 else limit

/-- `QuoteHandler.List`: clamps page to 1 when `< 1` and limit to 10
when outside `[1, 50]`, then queries the store; a store NotFound is
turned into an empty-list success. -/
def quoteListHandler (user? : Option User) (params : ListQuotesParams)
    (st : StoreState) : ApiResult (List QuoteResponse) × StoreState :=
  match user? with
  | none => (.failure 401 .unauthorized "Authentication required", st)
  | some _ =>
    match quotesList st ⟨params.author, clampPage params.page, clampLimit params.limit⟩ with
    | .error e =>
      if e.code = .notFound then (.success 200 [], st)
      else (.failure 500 .databaseError "Failed to retrieve quotes", st)
    | .ok quotes =>
      (.success 200 (quotes.map (fun q =>
        toQuoteResponse q (lookupUsername st q.uploaderID))), st)

/-- `QuoteHandler.GetRandom` (`k` is the random draw). -/
def quoteGetRandomHandler (k : Nat) (user? : Option User) (author : String)
    (st : StoreState) : ApiResult QuoteResponse × StoreState :=
  match user? with
  | none => (.failure 401 .unauthorized "Authentication required", st)
  | some _ =>
    match quotesGetRandom k st ⟨author, 0, 0⟩ with
    | .error e =>
      if e.code = .notFound then (.failure 404 .notFound "No quotes found", st)
      else (.failure 500 .databaseError "Failed to get random quote", st)
    | .ok q =>
      match usersGetByID st q.uploaderID with
      | .error _ => (.success 200 (toQuoteResponse q "Unknown"), st)
      | .ok uploader => (.success 200 (toQuoteResponse q uploader.username), st)

/-- `QuoteHandler.Update`: looks the quote up, rejects a non-uploader
with 403 before reading the body, then binds/validates and writes. -/
def quoteUpdateHandler (user? : Option User) (id : String)
    (req : UpdateQuoteRequest) (st : StoreState) :
    ApiResult QuoteResponse × StoreState :=
  match user? with
  | none => (.failure 401 .unauthorized "Authentication required", st)
  | some user =>
    if id == "" then (.failure 400 .invalidInput "Quote ID is required", st)
    else
      match quotesGetByID st id with
      | .error e =>
        if e.code = .notFound then (.failure 404 .notFound "Quote not found", st)
        else (.failure 500 .databaseError "Failed to retrieve quote", st)
      | .ok quote =>
        if quote.uploaderID != user.id then
          (.failure 403 .forbidden "Not authorized to update this quote", st)
        else if !validUpdateQuote req then
          (.failure 400 .invalidInput "Invalid request data", st)
        else
          match quotesUpdate st { quote with text := req.text, author := req.author } with
          | .error _ => (.failure 500 .databaseError "Failed to update quote", st)
          | .ok (q', st') => (.success 200 (toQuoteResponse q' user.username), st')

/-- `QuoteHandler.Delete`. -/
def quoteDeleteHandler (user? : Option User) (id : String) (st : StoreState) :
    ApiResult (Option Unit) × StoreState :=
  match user? with
  | none => (.failure 401 .unauthorized "Authentication required", st)
  | some user =>
    if id == "" then (.failure 400 .invalidInput "Quote ID is required", st)
    else
      match quotesGetByID st id with
      | .error e =>
        if e.code = .notFound then (.failure 404 .notFound "Quote not found", st)
        else (.failure 500 .databaseError "Failed to retrieve quote", st)
      | .ok quote =>
        if quote.uploaderID != user.id then
          (.failure 403 .forbidden "Not authorized to delete this quote", st)
        else
          match quotesDelete st id with
          | .error e =>
            if e.code = .notFound then (.failure 404 .notFound "Quote not found", st)
            else (.failure 500 .databaseError "Failed to delete quote", st)
          | .ok st' => (.success 200 none, st')

/-! ## Group handlers (`internal/handlers/groups.go`) -/

/-- The member-verification loop shared by `GroupHandler.Create` and
`GroupHandler.Update`: for each requested member id, `Users().GetByID`
must succeed (404 on NotFound, 500 otherwise) and the member must have
`authenticated = true` (else 400).  Returns the first rejection, or
`none` when every member passes. -/
def checkMembers (st : StoreState) : List String → Option (ApiResult (Option GroupResponse))
  | [] => none
  | m :: rest =>
    match usersGetByID st m with
    | .error e =>
      if e.code = .notFound then some (.failure 404 .notFound "Member not found")
      else some (.failure 500 .databaseError "Failed to verify member")
    | .ok u =>
      if !u.authenticated then
        some (.failure 400 .invalidInput "Member not authenticated")
      else checkMembers st rest

/-- The final member list of `GroupHandler.Create`: the creator is
appended when absent from the requested list. -/
def finalMembers (req : CreateGroupRequest) (creatorID : String) : List String :=
  if req.members.any (fun m => m == creatorID) then req.members
  else req.members ++ [creatorID]

/-- The per-member insert loop of `GroupHandler.Create`.  `insertOk i`
says whether the `i`-th `Groups().Create` database insert succeeds
(the database is external, so failure is an oracle); on the first
failure the loop aborts, leaving the rows already inserted committed. -/
def insertMemberRows (insertOk : Nat → Bool) (gid nm : String) :
    List String → Nat → List Group → StoreState →
    (Except Unit (List Group)) × StoreState
  | [], _, acc, st => (.ok acc, st)
  | m :: rest, i, acc, st =>
    if insertOk i then
      let (g, st') := groupsCreateRow st gid nm m
      insertMemberRows insertOk gid nm rest (i + 1) (acc ++ [g]) st'
    else (.error (), st)

/-- `GroupHandler.Create`. -/
def groupCreateHandler (insertOk : Nat → Bool) (user? : Option User)
    (req : CreateGroupRequest) (st : StoreState) :
    ApiResult (Option GroupResponse) × StoreState :=
  match user? with
  | none => (.failure 401 .unauthorized "Authentication required", st)
  | some user =>
    if !validCreateGroup req then
      (.failure 400 .invalidInput "Invalid request data", st)
    else
      match checkMembers st req.members with
      | some r => (r, st)
      | none =>
        let members := finalMembers req user.id
        match insertMemberRows insertOk req.groupID req.name members 0 [] st with
        | (.error _, st') =>
          (.failure 500 .databaseError "Failed to create group", st')
        | (.ok created, st') =>
          (.success 201 (toGroupResponse st' created), st')

/-- `GroupHandler.List`: a store NotFound (no membership rows) becomes
an empty-list success.  The Go code groups the rows with a map whose
iteration order is unspecified; here the group keys are taken in
first-occurrence order. -/
def groupListHandler (user? : Option User) (st : StoreState) :
    ApiResult (List GroupResponse) × StoreState :=
  match user? with
  | none => (.failure 401 .unauthorized "Authentication required", st)
  | some user =>
    match groupsGetByMemberID st user.id with
    | .error e =>
      if e.code = .notFound then (.success 200 [], st)
      else (.failure 500 .databaseError "Failed to retrieve groups", st)
    | .ok rows =>
      let keys := (rows.map (fun g => g.groupID)).dedup
      (.success 200 (keys.filterMap (fun k =>
        toGroupResponse st (rows.filter (fun g => g.groupID == k)))), st)

/-- The per-row name-update loop of `GroupHandler.Update`: each fetched
row's name is set and written back; the first store error aborts the
loop, leaving earlier updates committed. -/
def updateRowsLoop (nm : String) :
    List Group → StoreState → Option ReminiscerError × StoreState
  | [], st => (none, st)
  | g :: rest, st =>
    match groupsUpdateRow st { g with name := nm } with
    | .ok st' => updateRowsLoop nm rest st'
    | .error e => (some e, st)

/-- `GroupHandler.Update`: membership check (403), member-existence
validation of the request's members list, then the name-update loop —
the members list itself is never written. -/
def groupUpdateHandler (user? : Option User) (gid : String)
    (req : UpdateGroupRequest) (st : StoreState) :
    ApiResult (Option GroupResponse) × StoreState :=
  match user? with
  | none => (.failure 401 .unauthorized "Authentication required", st)
  | some user =>
    if gid == "" then (.failure 400 .invalidInput "Group ID is required", st)
    else if !validUpdateGroup req then
      (.failure 400 .invalidInput "Invalid request data", st)
    else
      match groupsGetByGroupID st gid with
      | .error e =>
        if e.code = .notFound then (.failure 404 .notFound "Group not found", st)
        else (.failure 500 .databaseError "Failed to retrieve group", st)
      | .ok rows =>
        if !(rows.any (fun g => g.memberID == user.id)) then
          (.failure 403 .forbidden "Not authorized to update this group", st)
        else
          match checkMembers st req.members with
          | some r => (r, st)
          | none =>
            match updateRowsLoop req.name rows st with
            | (some _, st') =>
              (.failure 500 .databaseError "Failed to update group", st')
            | (none, st') =>
              match groupsGetByGroupID st' gid with
              | .error _ =>
                (.failure 500 .databaseError "Failed to retrieve updated group", st')
              | .ok updated =>
                (.success 200 (toGroupResponse st' updated), st')

/-! ## Authentication middleware (`internal/middleware/auth.go`) -/

/-- JWT claims embedded in a token (`middleware.Claims`). -/
structure TokenClaims where
  userID : String
  email : String
  issuedAt : Nat
  expiresAt : Nat
deriving DecidableEq, Repr

/-- A signed bearer token: its claims, the algorithm named in its
header, and the secret it was signed with. -/
structure SignedToken where
  claims : TokenClaims
  alg : String
  secret : String
deriving DecidableEq, Repr

/-- The outcome of `jwt.ParseWithClaims` as observed by the middleware:
valid claims, the expiry error (`jwt.ErrTokenExpired`), or any other
parse/validation failure. -/
inductive ParseOutcome where
  | ok (c : TokenClaims)
  | expired
  | invalid
deriving DecidableEq, Repr

/-- `alg` accepted by the middleware's key function, which requires
`token.Method` to be a `*jwt.SigningMethodHMAC`. -/
def isHMAC (alg : String) : Bool :=
  alg == "HS256" || alg == "HS384" || alg == "HS512"

/-- Modelled from the spec: token verification itself lives in the
external `golang-jwt` library, of which the repository only contains
the call sites; per §4.5, `verify(token) → claims | {Expired, Invalid}`
with the algorithm pinned to symmetric HMAC, a wrong signature
rejected as Invalid, and a token at or past its expiry (e.g. issued
with TTL=0) rejected as Expired. -/
def jwtParse (secret : String) (now : Nat) (t : SignedToken) : ParseOutcome :=
  if !isHMAC t.alg then .invalid
  else if t.secret != secret then .invalid
  else if t.claims.expiresAt ≤ now then .expired
  else .ok t.claims

/-- `AuthMiddleware.GenerateToken`: claims carry the user's id and
email, issued now, expiring `ttl` later, signed HS256 with the
configured secret. -/
def generateToken (secret : String) (ttl : Nat) (now : Nat) (u : User) :
    SignedToken :=
  ⟨⟨u.id, u.email, now, now + ttl⟩, "HS256", secret⟩

/-- Outcome of the strict authentication middleware: either the request
proceeds with a resolved user, or it is rejected with a response. -/
inductive AuthOutcome where
  | proceed (u : User)
  | reject (status : Nat) (code : ErrCode) (message : String)
deriving DecidableEq, Repr

/-- The error code of a middleware rejection (for comparing the two
rejection kinds). -/
def AuthOutcome.rejectCode : AuthOutcome → Option ErrCode
  | .proceed _ => none
  | .reject _ c _ => some c

/-- `AuthMiddleware.Authenticate`, from the token-verification step on
(the bearer token has been extracted from the header): the expiry error
maps to 401/`INVALID_TOKEN`/"Token has expired", any other parse
failure to 401/`INVALID_TOKEN`/"Invalid token"; then the user must
resolve and have `authenticated = true`. -/
def authenticateMW (secret : String) (now : Nat) (tok : SignedToken)
    (st : StoreState) : AuthOutcome :=
  match jwtParse secret now tok with
  | .expired => .reject 401 .invalidToken "Token has expired"
  | .invalid => .reject 401 .invalidToken "Invalid token"
  | .ok claims =>
    match usersGetByID st claims.userID with
    | .error e =>
      if e.code = .notFound then .reject 401 .unauthorized "User not found"
      else .reject 500 .databaseError "Error verifying user"
    | .ok u =>
      if !u.authenticated then .reject 401 .unauthorized "User not authenticated"
      else .proceed u

/-- The membership rows produced by running the insert loop of
`GroupHandler.Create` over a member list with every insert succeeding:
one row per list element, with ids and timestamps drawn from the
evolving state. -/
def rowsFor (gid nm : String) : List String → StoreState → List Group
  | [], _ => []
  | m :: rest, st =>
    (groupsCreateRow st gid nm m).1 :: rowsFor gid nm rest (groupsCreateRow st gid nm m).2

/-- The store state after inserting one membership row per member of
the list. -/
def stateAfterRows (gid nm : String) : List String → StoreState → StoreState
  | [], st => st
  | m :: rest, st => stateAfterRows gid nm rest (groupsCreateRow st gid nm m).2

/-! ## Concrete fixtures for witnesses and counterexamples -/

/-- A registered, authenticated user who is a member of no group. -/
def alice : User := ⟨"alice", "alice@mail.com", "Alice", "h1", true, 1⟩

/-- A registered, authenticated user, sole member of group `g1`. -/
def bob : User := ⟨"bob", "bob@mail.com", "Bob", "h2", true, 1⟩

/-- A store with users alice and bob, one membership row (`g1`, bob),
and one quote posted by bob to `g1`. -/
def st0 : StoreState :=
  ⟨[alice, bob], [⟨"r1", "g1", "Friends", "bob", 1, 1⟩],
   [⟨"q1", "hello", "auth", "bob", "g1", 2, 2⟩], 0, 5⟩

/-- A store with users but no membership rows and no quotes. -/
def stEmpty : StoreState := ⟨[alice, bob], [], [], 0, 5⟩

/-- The fields of a membership row that identify it and its member:
row id, group key, member id, creation time. -/
def groupProj (g : Group) : String × String × String × Nat :=
  (g.id, g.groupID, g.memberID, g.createdAt)

/-! ## Helper lemmas -/

theorem groupSortDesc_any (l : List Group) (p : Group → Bool) :
    (groupSortDesc l).any p = l.any p := by
  rw [Bool.eq_iff_iff]
  simp [groupSortDesc, List.any_eq_true]

theorem groupsGetByGroupID_ok (st : StoreState) (gid : String)
    (h : st.groups.filter (fun g => g.groupID == gid) ≠ []) :
    groupsGetByGroupID st gid
      = .ok (groupSortDesc (st.groups.filter (fun g => g.groupID == gid))) := by
  unfold groupsGetByGroupID
  have he : (groupSortDesc (st.groups.filter (fun g => g.groupID == gid))).isEmpty = false := by
    rw [List.isEmpty_eq_false_iff_exists_mem]
    rcases List.exists_mem_of_ne_nil _ h with ⟨x, hx⟩
    exact ⟨x, by simpa [groupSortDesc] using hx⟩
  simp [he]

theorem filter_any (l : List Group) (q p : Group → Bool) :
    (l.filter q).any p = l.any (fun g => q g && p g) := by
  rw [Bool.eq_iff_iff]
  simp [List.any_eq_true, List.mem_filter]

/-! ## Claims -/

/-- C1 (amended): the quote-read operations perform no membership
check: the response of `QuoteHandler.List` and of
`QuoteHandler.GetRandom` is independent of the membership table, so
any authenticated user receives quotes regardless of the groups they
belong to, and a non-member read is never rejected with 403. -/
theorem quote_reads_ignore_membership (k : Nat) (u : User)
    (p : ListQuotesParams) (a : String) (st : StoreState) (gs : List Group) :
    (quoteListHandler (some u) p { st with groups := gs }).1
      = (quoteListHandler (some u) p st).1
    ∧ (quoteGetRandomHandler k (some u) a { st with groups := gs }).1
      = (quoteGetRandomHandler k (some u) a st).1 := by
  refine ⟨rfl, ?_⟩
  unfold quoteGetRandomHandler
  have h : quotesGetRandom k { st with groups := gs } (⟨a, 0, 0⟩ : QuoteFilter)
      = quotesGetRandom k st ⟨a, 0, 0⟩ := rfl
  rw [h]
  cases quotesGetRandom k st (⟨a, 0, 0⟩ : QuoteFilter) with
  | error e => by_cases hc : e.code = .notFound <;> simp [hc]
  | ok q =>
    dsimp only
    have h2 : usersGetByID { st with groups := gs } q.uploaderID
        = usersGetByID st q.uploaderID := rfl
    rw [h2]
    cases usersGetByID st q.uploaderID <;> rfl

/-- C1 counterexample: alice is a member of no row of group `g1`, yet
both `List` and `GetRandom` return bob's quote from `g1` to her with
status 200 — not a 403 rejection. -/
theorem quote_reads_leak_to_nonmember :
    (st0.groups.all (fun g => !(g.memberID == "alice"))) = true
    ∧ (quoteListHandler (some alice) ⟨"", 1, 10⟩ st0).1
      = .success 200 [⟨"q1", "hello", "auth", "bob", "g1", 2, 2, "Bob"⟩]
    ∧ (quoteGetRandomHandler 0 (some alice) "" st0).1
      = .success 200 ⟨"q1", "hello", "auth", "bob", "g1", 2, 2, "Bob"⟩ := by
  refine ⟨by decide, by decide, by decide⟩

/-- C2 (amended): for a creation request that passes input validation
and whose group key resolves to at least one membership row, creation
succeeds (201, quote stored with stamped id and timestamps) precisely
when the acting user appears among the group's member rows; a
non-member gets FORBIDDEN (403) and the store is unchanged.  (A
request with invalid content is rejected with 400 before the
membership check — see the counterexample.) -/
theorem quote_create_iff_member (user : User) (req : CreateQuoteRequest)
    (st : StoreState)
    (hvalid : validCreateQuote req = true)
    (hresolve : st.groups.filter (fun g => g.groupID == req.groupID) ≠ []) :
    ((st.groups.any (fun g => g.groupID == req.groupID && g.memberID == user.id)) = true →
      quoteCreateHandler (some user) req st
        = (.success 201 (toQuoteResponse
            ⟨st.freshId, req.text, req.author, user.id, req.groupID, st.now, st.now⟩
            user.username),
           { st with
              quotes := st.quotes ++
                [⟨st.freshId, req.text, req.author, user.id, req.groupID, st.now, st.now⟩],
              nextId := st.nextId + 1 }))
    ∧ ((st.groups.any (fun g => g.groupID == req.groupID && g.memberID == user.id)) = false →
      quoteCreateHandler (some user) req st
        = (.failure 403 .forbidden "Not a member of this group", st)) := by
  have hmem : (groupSortDesc (st.groups.filter (fun g => g.groupID == req.groupID))).any
      (fun g => g.memberID == user.id)
      = st.groups.any (fun g => g.groupID == req.groupID && g.memberID == user.id) := by
    rw [groupSortDesc_any, filter_any]
  constructor
  · intro h
    unfold quoteCreateHandler
    rw [groupsGetByGroupID_ok st req.groupID hresolve]
    simp [hvalid, hmem, h, quotesCreate, toQuoteResponse]
  · intro h
    unfold quoteCreateHandler
    rw [groupsGetByGroupID_ok st req.groupID hresolve]
    simp [hvalid, hmem, h]

/-- C2 witness: in `st0`, member bob's valid quote creation on `g1`
succeeds and is stored; non-member alice's valid creation is rejected
with 403 and the store is unchanged. -/
theorem quote_create_iff_member_witness :
    quoteCreateHandler (some bob) ⟨"t", "a", "g1"⟩ st0
      = (.success 201 (toQuoteResponse
          ⟨st0.freshId, "t", "a", bob.id, "g1", st0.now, st0.now⟩ bob.username),
         { st0 with
            quotes := st0.quotes ++ [⟨st0.freshId, "t", "a", bob.id, "g1", st0.now, st0.now⟩],
            nextId := st0.nextId + 1 })
    ∧ quoteCreateHandler (some alice) ⟨"t", "a", "g1"⟩ st0
      = (.failure 403 .forbidden "Not a member of this group", st0) :=
  ⟨(quote_create_iff_member bob ⟨"t", "a", "g1"⟩ st0 (by decide) (by decide)).1 (by decide),
   (quote_create_iff_member alice ⟨"t", "a", "g1"⟩ st0 (by decide) (by decide)).2 (by decide)⟩

/-- C2 counterexample: group `g1` resolves and alice is not a member,
yet her creation request with empty text is answered 400
INVALID_INPUT, not 403 FORBIDDEN — input validation runs before the
membership check, so the result is not FORBIDDEN "regardless of the
quote's content". -/
theorem quote_create_invalid_content_not_403 :
    (st0.groups.filter (fun g => g.groupID == "g1") ≠ [])
    ∧ (st0.groups.all (fun g => !(g.memberID == "alice"))) = true
    ∧ quoteCreateHandler (some alice) ⟨"", "a", "g1"⟩ st0
      = (.failure 400 .invalidInput "Invalid request data", st0) := by
  refine ⟨by decide, by decide, by decide⟩

/-- C3: update and delete of a stored quote by any user other than its
uploader are rejected with FORBIDDEN (403) and leave the store — hence
the stored quote's text, author, uploader, group and timestamps —
unchanged.  The ownership check runs before the update body is even
validated, so this holds for every request body. -/
theorem quote_mutation_requires_uploader (user : User) (qid : String) (q : Quote)
    (req : UpdateQuoteRequest) (st : StoreState)
    (hid : qid ≠ "")
    (hfind : st.quotes.find? (fun x => x.id == qid) = some q)
    (hup : q.uploaderID ≠ user.id) :
    quoteUpdateHandler (some user) qid req st
      = (.failure 403 .forbidden "Not authorized to update this quote", st)
    ∧ quoteDeleteHandler (some user) qid st
      = (.failure 403 .forbidden "Not authorized to delete this quote", st) := by
  have hq : quotesGetByID st qid = .ok q := by unfold quotesGetByID; rw [hfind]
  have hid' : (qid == "") = false := by simpa using hid
  have hup' : (q.uploaderID != user.id) = true := by simpa using hup
  constructor
  · unfold quoteUpdateHandler
    simp [hid', hq, hup']
  · unfold quoteDeleteHandler
    simp [hid', hq, hup']

/-- C3 witness: alice (not the uploader of quote `q1`) is rejected with
403 on both update and delete, and `st0` is unchanged. -/
theorem quote_mutation_requires_uploader_witness :
    quoteUpdateHandler (some alice) "q1" ⟨"x", "y"⟩ st0
      = (.failure 403 .forbidden "Not authorized to update this quote", st0)
    ∧ quoteDeleteHandler (some alice) "q1" st0
      = (.failure 403 .forbidden "Not authorized to delete this quote", st0) :=
  quote_mutation_requires_uploader alice "q1" ⟨"q1", "hello", "auth", "bob", "g1", 2, 2⟩
    ⟨"x", "y"⟩ st0 (by decide) (by decide) (by decide)

/-- C4: authentication with an unregistered email and authentication
with a registered email but non-matching password return literally the
same InvalidCredentials error — the two failure causes are
indistinguishable by error kind (and even by message). -/
theorem authenticate_failures_same_kind (verify : String → String → Bool)
    (st : StoreState) (e1 p1 e2 p2 : String) (u : User)
    (h1 : st.users.find? (fun x => x.email == e1) = none)
    (h2 : st.users.find? (fun x => x.email == e2) = some u)
    (h3 : verify u.password p2 = false) :
    usersAuthenticate verify st e1 p1
      = .error ⟨.invalidCredentials, "Invalid email or password"⟩
    ∧ usersAuthenticate verify st e2 p2
      = .error ⟨.invalidCredentials, "Invalid email or password"⟩ := by
  constructor
  · unfold usersAuthenticate; rw [h1]
  · unfold usersAuthenticate; rw [h2]; simp [h3]

/-- C4 witness: an unknown email and alice's email with a wrong
password produce the identical error. -/
theorem authenticate_failures_same_kind_witness :
    usersAuthenticate (fun h p => h == p) st0 "ghost@mail.com" "pw"
      = .error ⟨.invalidCredentials, "Invalid email or password"⟩
    ∧ usersAuthenticate (fun h p => h == p) st0 "alice@mail.com" "wrong"
      = .error ⟨.invalidCredentials, "Invalid email or password"⟩ :=
  authenticate_failures_same_kind (fun h p => h == p) st0 "ghost@mail.com" "pw"
    "alice@mail.com" "wrong" alice (by decide) (by decide) (by decide)

/-- C5 (amended): a token whose expiry has passed (including one
issued with TTL=0) is rejected with 401, code INVALID_TOKEN and
message "Token has expired"; a token signed with a different secret,
or whose header names a non-HMAC algorithm, is rejected with 401, code
INVALID_TOKEN and message "Invalid token".  Both rejections carry 401
and the same INVALID_TOKEN error code; only the message text
distinguishes them. -/
theorem token_expired_vs_invalid (secret : String) (now : Nat) (t : SignedToken)
    (st : StoreState) :
    (isHMAC t.alg = true → t.secret = secret → t.claims.expiresAt ≤ now →
      authenticateMW secret now t st = .reject 401 .invalidToken "Token has expired")
    ∧ (t.secret ≠ secret →
      authenticateMW secret now t st = .reject 401 .invalidToken "Invalid token")
    ∧ (isHMAC t.alg = false →
      authenticateMW secret now t st = .reject 401 .invalidToken "Invalid token") := by
  refine ⟨?_, ?_, ?_⟩
  · intro h1 h2 h3
    unfold authenticateMW jwtParse
    simp [h1, h2, h3]
  · intro h1
    unfold authenticateMW jwtParse
    by_cases h2 : isHMAC t.alg <;> simp [h2, h1]
  · intro h1
    unfold authenticateMW jwtParse
    simp [h1]

/-- C5 witness: a TTL=0 token verified at its issue time is rejected
as expired; a wrong-secret token is rejected as invalid. -/
theorem token_expired_vs_invalid_witness :
    authenticateMW "s" 10 (generateToken "s" 0 10 alice) st0
      = .reject 401 .invalidToken "Token has expired"
    ∧ authenticateMW "s" 10 ⟨⟨"alice", "alice@mail.com", 0, 100⟩, "HS256", "other"⟩ st0
      = .reject 401 .invalidToken "Invalid token" :=
  ⟨(token_expired_vs_invalid "s" 10 (generateToken "s" 0 10 alice) st0).1
      (by decide) (by decide) (by decide),
   (token_expired_vs_invalid "s" 10 ⟨⟨"alice", "alice@mail.com", 0, 100⟩, "HS256", "other"⟩ st0).2.1
      (by decide)⟩

/-- C5 counterexample: the expired-token rejection and the
wrong-secret rejection carry the SAME error code (INVALID_TOKEN), so
the two failure causes are not two distinct error kinds — they differ
only in the message string. -/
theorem token_rejections_share_code :
    authenticateMW "s" 10 (generateToken "s" 0 10 alice) st0
      = .reject 401 .invalidToken "Token has expired"
    ∧ authenticateMW "s" 10 ⟨⟨"alice", "alice@mail.com", 0, 100⟩, "HS256", "other"⟩ st0
      = .reject 401 .invalidToken "Invalid token"
    ∧ (authenticateMW "s" 10 (generateToken "s" 0 10 alice) st0).rejectCode
      = (authenticateMW "s" 10 ⟨⟨"alice", "alice@mail.com", 0, 100⟩, "HS256", "other"⟩ st0).rejectCode := by
  refine ⟨by decide, by decide, by decide⟩

/-! Ordering instances for the `created_at DESC` sort on quotes. -/

instance : IsTotal Quote (fun a b => b.createdAt ≤ a.createdAt) :=
  ⟨fun a b => Nat.le_total b.createdAt a.createdAt⟩

instance : IsTrans Quote (fun a b => b.createdAt ≤ a.createdAt) :=
  ⟨fun _ _ _ hab hbc => Nat.le_trans hbc hab⟩

theorem clampPage_ge_one (p : Int) : 1 ≤ clampPage p := by
  unfold clampPage; split <;> omega

theorem clampLimit_bounds (l : Int) : 1 ≤ clampLimit l ∧ clampLimit l ≤ 50 := by
  unfold clampLimit; split <;> omega

/-- On handler-clamped values the store's own re-clamp is the
identity, so the store returns exactly the window of the sorted,
author-filtered quote list at the 64-bit-wrapped offset. -/
theorem quotesList_clamped (st : StoreState) (a : String) (p l : Int) :
    quotesList st ⟨a, clampPage p, clampLimit l⟩
      = .ok (((quoteSortDesc (quotesMatching st a)).drop
          ((wrap64 ((clampPage p - 1) * clampLimit l)).toNat)).take
          (clampLimit l).toNat) := by
  unfold quotesList
  have h1 : ¬ (clampPage p < 1) := by have := clampPage_ge_one p; omega
  have h2 : ¬ (clampLimit l < 1) := by have := (clampLimit_bounds l).1; omega
  simp [h1, h2]

/-- The 64-bit wrap is the identity on values that fit in a
non-negative `int64`, i.e. whenever the offset product does not
overflow. -/
theorem wrap64_eq_of_lt (x : Int) (h0 : 0 ≤ x) (h1 : x < 2 ^ 63) :
    wrap64 x = x := by
  unfold wrap64
  rw [Int.emod_eq_of_lt h0 (by omega)]
  exact if_pos h1

theorem quoteSortDesc_pairwise (l : List Quote) :
    List.Pairwise (fun a b => b.createdAt ≤ a.createdAt) (quoteSortDesc l) :=
  List.sorted_insertionSort _ l

/-- C6 (amended): list requests behave as page 1 when page < 1 and as
limit 10 when limit is outside `[1, 50]`; the returned quotes are the
window of size `limit` of the author-filtered quote list ordered by
creation time descending, starting at the offset `(page-1)*limit`
computed in Go's wrapping 64-bit `int` arithmetic (a wrapped-negative
offset behaves as 0); the returned data is sorted by creation time
descending; and whenever the product does not overflow `int64` — every
practical page — the wrapped offset coincides with the mathematical
`(page-1)*limit`. -/
theorem quote_list_clamps_and_orders (u : User) (p : ListQuotesParams)
    (st : StoreState) :
    (p.page < 1 → quoteListHandler (some u) p st
        = quoteListHandler (some u) ⟨p.author, 1, p.limit⟩ st)
    ∧ (p.limit < 1 ∨ p.limit > 50 → quoteListHandler (some u) p st
        = quoteListHandler (some u) ⟨p.author, p.page, 10⟩ st)
    ∧ (quoteListHandler (some u) p st).1
      = .success 200 ((((quoteSortDesc (quotesMatching st p.author)).drop
            ((wrap64 ((clampPage p.page - 1) * clampLimit p.limit)).toNat)).take
            (clampLimit p.limit).toNat).map
          (fun q => toQuoteResponse q (lookupUsername st q.uploaderID)))
    ∧ List.Pairwise (fun a b : QuoteResponse => b.createdAt ≤ a.createdAt)
        ((((quoteSortDesc (quotesMatching st p.author)).drop
            ((wrap64 ((clampPage p.page - 1) * clampLimit p.limit)).toNat)).take
            (clampLimit p.limit).toNat).map
          (fun q => toQuoteResponse q (lookupUsername st q.uploaderID)))
    ∧ ((clampPage p.page - 1) * clampLimit p.limit < 2 ^ 63 →
        wrap64 ((clampPage p.page - 1) * clampLimit p.limit)
          = (clampPage p.page - 1) * clampLimit p.limit) := by
  refine ⟨?_, ?_, ?_, ?_, ?_⟩
  · intro h
    unfold quoteListHandler
    have hc : clampPage p.page = clampPage 1 := by
      unfold clampPage; rw [if_pos h]; norm_num
    rw [show (⟨p.author, clampPage p.page, clampLimit p.limit⟩ : QuoteFilter)
        = ⟨p.author, clampPage 1, clampLimit p.limit⟩ from by rw [hc]]
  · intro h
    unfold quoteListHandler
    have hc : clampLimit p.limit = clampLimit 10 := by
      unfold clampLimit; rw [if_pos h]; norm_num
    rw [show (⟨p.author, clampPage p.page, clampLimit p.limit⟩ : QuoteFilter)
        = ⟨p.author, clampPage p.page, clampLimit 10⟩ from by rw [hc]]
  · unfold quoteListHandler
    rw [quotesList_clamped]
  · rw [List.pairwise_map]
    exact ((quoteSortDesc_pairwise (quotesMatching st p.author)).sublist
      ((List.take_sublist _ _).trans (List.drop_sublist _ _))).imp (fun h => h)
  · intro h
    refine wrap64_eq_of_lt _ (mul_nonneg ?_ ?_) h
    · have := clampPage_ge_one p.page; omega
    · have := (clampLimit_bounds p.limit).1; omega

/-- C6 witness: `page=0` behaves as `page=1`, `limit=999` behaves as
`limit=10`, and the wrapped offset agrees with the mathematical one on
this non-overflowing input, all on the concrete store `st0`. -/
theorem quote_list_clamps_and_orders_witness :
    quoteListHandler (some alice) ⟨"", 0, 999⟩ st0
      = quoteListHandler (some alice) ⟨"", 1, 999⟩ st0
    ∧ quoteListHandler (some alice) ⟨"", 0, 999⟩ st0
      = quoteListHandler (some alice) ⟨"", 0, 10⟩ st0
    ∧ wrap64 ((clampPage 0 - 1) * clampLimit 999)
      = (clampPage 0 - 1) * clampLimit 999 :=
  ⟨(quote_list_clamps_and_orders alice ⟨"", 0, 999⟩ st0).1 (by decide),
   (quote_list_clamps_and_orders alice ⟨"", 0, 999⟩ st0).2.1 (by decide),
   (quote_list_clamps_and_orders alice ⟨"", 0, 999⟩ st0).2.2.2.2 (by decide)⟩

/-- C6 counterexample: at `page = 2^59 + 1, limit = 32` — limit within
`[1, 50]`, so unclamped — the mathematical offset `(page-1)*limit`
equals `2^64`, whose window over the single-quote store is empty; but
Go's 64-bit offset wraps to 0, and the handler returns the quote.  The
original claim's "the result window starts at offset (page-1)×limit"
is false of the program on this reachable input. -/
theorem quote_list_offset_wraps :
    (quoteListHandler (some alice) ⟨"", 2 ^ 59 + 1, 32⟩ st0).1
      = .success 200 [⟨"q1", "hello", "auth", "bob", "g1", 2, 2, "Bob"⟩]
    ∧ (((quoteSortDesc (quotesMatching st0 "")).drop
          ((((2 ^ 59 + 1 : Int) - 1) * 32).toNat)).take (32 : Int).toNat).map
        (fun q => toQuoteResponse q (lookupUsername st0 q.uploaderID)) = [] := by
  refine ⟨by decide, by decide⟩

/-! Lemmas about the group-creation insert loop. -/

theorem insertMemberRows_allOk (gid nm : String) (ms : List String) (i : Nat)
    (acc : List Group) (st : StoreState) :
    insertMemberRows (fun _ => true) gid nm ms i acc st
      = (.ok (acc ++ rowsFor gid nm ms st), stateAfterRows gid nm ms st) := by
  induction ms generalizing i acc st with
  | nil => simp [insertMemberRows, rowsFor, stateAfterRows]
  | cons m rest ih =>
    simp [insertMemberRows, rowsFor, stateAfterRows, ih]

theorem stateAfterRows_fields (gid nm : String) (ms : List String) (st : StoreState) :
    (stateAfterRows gid nm ms st).groups = st.groups ++ rowsFor gid nm ms st
    ∧ (stateAfterRows gid nm ms st).users = st.users
    ∧ (stateAfterRows gid nm ms st).quotes = st.quotes := by
  induction ms generalizing st with
  | nil => simp [stateAfterRows, rowsFor]
  | cons m rest ih =>
    simp [stateAfterRows, rowsFor, ih, groupsCreateRow]

theorem rowsFor_countP (gid nm : String) (ms : List String) (st : StoreState) (m : String) :
    (rowsFor gid nm ms st).countP (fun g => g.groupID == gid && g.memberID == m)
      = ms.count m := by
  induction ms generalizing st with
  | nil => simp [rowsFor]
  | cons x rest ih =>
    by_cases hx : x = m <;>
      simp [rowsFor, groupsCreateRow, List.countP_cons, List.count_cons, ih, hx]

theorem rowsFor_length (gid nm : String) (ms : List String) (st : StoreState) :
    (rowsFor gid nm ms st).length = ms.length := by
  induction ms generalizing st with
  | nil => rfl
  | cons x rest ih => simp [rowsFor, ih]

/-- In a duplicate-free request list, the final member list (creator
appended when absent) holds each member of `L ∪ {creator}` exactly
once. -/
theorem finalMembers_count (req : CreateGroupRequest) (uid : String)
    (hnd : req.members.Nodup) (m : String) :
    (finalMembers req uid).count m
      = if m ∈ req.members ∨ m = uid then 1 else 0 := by
  unfold finalMembers
  by_cases hin : req.members.any (fun x => x == uid)
  · have huid : uid ∈ req.members := by
      rcases List.any_eq_true.mp hin with ⟨x, hx, hxe⟩
      rw [show x = uid from by simpa using hxe] at hx
      exact hx
    rw [if_pos hin]
    by_cases hm : m ∈ req.members
    · rw [if_pos (Or.inl hm)]
      exact List.count_eq_one_of_mem hnd hm
    · have : ¬ (m ∈ req.members ∨ m = uid) := by
        rintro (h | rfl); exact hm h; exact hm huid
      rw [if_neg this]
      exact List.count_eq_zero_of_not_mem hm
  · have huid : uid ∉ req.members := by
      intro h
      exact hin (List.any_eq_true.mpr ⟨uid, h, by simp⟩)
    rw [if_neg hin]
    by_cases hm : m ∈ req.members
    · have hmu : m ≠ uid := fun h => huid (h ▸ hm)
      rw [if_pos (Or.inl hm)]
      rw [List.count_append]
      simp [List.count_eq_one_of_mem hnd hm, List.count_singleton, hmu]
    · by_cases hmu : m = uid
      · subst hmu
        rw [if_pos (Or.inr rfl)]
        rw [List.count_append]
        simp [List.count_eq_zero_of_not_mem hm]
      · rw [if_neg (by rintro (h | h); exact hm h; exact hmu h)]
        rw [List.count_append]
        simp [List.count_eq_zero_of_not_mem hm, hmu]

/-- C7 (amended): with every insert succeeding, group creation inserts
one membership row per OCCURRENCE in the final member list — the
request's list with the creator appended when absent.  Per member id,
the number of (group key, member) rows grows by that id's number of
occurrences in the request list; when the request list is
duplicate-free this is exactly one row per member of `L ∪ {creator}`,
but a duplicated id in the request receives one row per occurrence
(see the counterexample). -/
theorem group_create_row_per_occurrence (user : User) (req : CreateGroupRequest)
    (st : StoreState)
    (hvalid : validCreateGroup req = true)
    (hcheck : checkMembers st req.members = none) :
    ((groupCreateHandler (fun _ => true) (some user) req st).2).groups
      = st.groups ++ rowsFor req.groupID req.name (finalMembers req user.id) st
    ∧ (∀ m : String,
        (((groupCreateHandler (fun _ => true) (some user) req st).2).groups.countP
            (fun g => g.groupID == req.groupID && g.memberID == m))
          = st.groups.countP (fun g => g.groupID == req.groupID && g.memberID == m)
            + (finalMembers req user.id).count m)
    ∧ (req.members.Nodup → ∀ m : String,
        (finalMembers req user.id).count m
          = if m ∈ req.members ∨ m = user.id then 1 else 0) := by
  have hrun : (groupCreateHandler (fun _ => true) (some user) req st).2
      = stateAfterRows req.groupID req.name (finalMembers req user.id) st := by
    unfold groupCreateHandler
    simp [hvalid, hcheck, insertMemberRows_allOk]
  refine ⟨?_, ?_, fun hnd m => finalMembers_count req user.id hnd m⟩
  · rw [hrun]
    exact (stateAfterRows_fields _ _ _ _).1
  · intro m
    rw [hrun, (stateAfterRows_fields _ _ _ _).1]
    rw [List.countP_append, rowsFor_countP]

/-- C7 witness: creating group `g2` with requested member alice and
creator bob adds one `g2` row for alice and one for bob (the creator
was absent from the list and is implicitly added). -/
theorem group_create_row_per_occurrence_witness :
    (((groupCreateHandler (fun _ => true) (some bob) ⟨"Team", "g2", ["alice"]⟩ st0).2).groups.countP
        (fun g => g.groupID == "g2" && g.memberID == "alice"))
      = st0.groups.countP (fun g => g.groupID == "g2" && g.memberID == "alice")
        + (finalMembers ⟨"Team", "g2", ["alice"]⟩ bob.id).count "alice"
    ∧ (((groupCreateHandler (fun _ => true) (some bob) ⟨"Team", "g2", ["alice"]⟩ st0).2).groups.countP
        (fun g => g.groupID == "g2" && g.memberID == "bob"))
      = st0.groups.countP (fun g => g.groupID == "g2" && g.memberID == "bob")
        + (finalMembers ⟨"Team", "g2", ["alice"]⟩ bob.id).count "bob" :=
  ⟨(group_create_row_per_occurrence bob ⟨"Team", "g2", ["alice"]⟩ st0
      (by decide) (by decide)).2.1 "alice",
   (group_create_row_per_occurrence bob ⟨"Team", "g2", ["alice"]⟩ st0
      (by decide) (by decide)).2.1 "bob"⟩

/-- C7 counterexample: a creation request listing alice twice inserts
TWO rows for alice under the group key — the claim's "no member gets
more than one row from this single request" fails on duplicate request
lists. -/
theorem group_create_duplicate_rows :
    (((groupCreateHandler (fun _ => true) (some bob) ⟨"Team", "g2", ["alice", "alice"]⟩ st0).2).groups.countP
        (fun g => g.groupID == "g2" && g.memberID == "alice")) = 2 := by decide

/-- The insert loop with inserts succeeding up to position `j`
(0-based) and failing at `j` aborts with an error, leaving exactly the
first `j` rows committed. -/
theorem insertMemberRows_failAt (gid nm : String) (insertOk : Nat → Bool)
    (ms : List String) (j i : Nat) (acc : List Group) (st : StoreState)
    (hok : ∀ d, d < j → insertOk (i + d) = true) (hfail : insertOk (i + j) = false)
    (hj : j < ms.length) :
    insertMemberRows insertOk gid nm ms i acc st
      = (.error (), stateAfterRows gid nm (ms.take j) st) := by
  induction ms generalizing i j acc st with
  | nil => simp at hj
  | cons m rest ih =>
    cases j with
    | zero =>
      have h0 : insertOk i = false := by simpa using hfail
      simp [insertMemberRows, h0, stateAfterRows, List.take]
    | succ j' =>
      have h0 : insertOk i = true := by simpa using hok 0 (Nat.succ_pos j')
      have hok' : ∀ d, d < j' → insertOk (i + 1 + d) = true := by
        intro d hd
        have h := hok (d + 1) (by omega)
        have he : i + (d + 1) = i + 1 + d := by omega
        rwa [he] at h
      have hfail' : insertOk (i + 1 + j') = false := by
        have he : i + (j' + 1) = i + 1 + j' := by omega
        rwa [he] at hfail
      have hj' : j' < rest.length := by simpa using hj
      simp [insertMemberRows, h0, stateAfterRows, List.take,
        ih j' (i + 1) (acc ++ [(groupsCreateRow st gid nm m).1]) _ hok' hfail' hj']

/-- C8: when the per-member insert loop of group creation fails at
position `j` (0-based; the claim's `k = j+1`), the handler aborts and
reports a 500 DATABASE_ERROR, and the `j` rows inserted before the
failure remain committed in the resulting store — no rollback. -/
theorem group_create_partial_commit (user : User) (req : CreateGroupRequest)
    (st : StoreState) (insertOk : Nat → Bool) (j : Nat)
    (hvalid : validCreateGroup req = true)
    (hcheck : checkMembers st req.members = none)
    (hok : ∀ i, i < j → insertOk i = true) (hfail : insertOk j = false)
    (hj : j < (finalMembers req user.id).length) :
    groupCreateHandler insertOk (some user) req st
      = (.failure 500 .databaseError "Failed to create group",
         stateAfterRows req.groupID req.name ((finalMembers req user.id).take j) st)
    ∧ (stateAfterRows req.groupID req.name ((finalMembers req user.id).take j) st).groups
      = st.groups ++ rowsFor req.groupID req.name ((finalMembers req user.id).take j) st
    ∧ (rowsFor req.groupID req.name ((finalMembers req user.id).take j) st).length = j := by
  have hok0 : ∀ d, d < j → insertOk (0 + d) = true := by simpa using hok
  have hfail0 : insertOk (0 + j) = false := by simpa using hfail
  refine ⟨?_, (stateAfterRows_fields _ _ _ _).1, ?_⟩
  · unfold groupCreateHandler
    simp [hvalid, hcheck,
      insertMemberRows_failAt req.groupID req.name insertOk _ j 0 [] st hok0 hfail0 hj]
  · rw [rowsFor_length]
    simp [List.length_take, Nat.min_eq_left (le_of_lt hj)]

/-- C8 witness: creating `g2` with members alice and bob where the
second insert fails yields the 500 failure, with alice's row (the
first insert) still committed. -/
theorem group_create_partial_commit_witness :
    groupCreateHandler (fun i => i == 0) (some bob) ⟨"Team", "g2", ["alice", "bob"]⟩ st0
      = (.failure 500 .databaseError "Failed to create group",
         stateAfterRows "g2" "Team"
           ((finalMembers ⟨"Team", "g2", ["alice", "bob"]⟩ bob.id).take 1) st0)
    ∧ (stateAfterRows "g2" "Team"
           ((finalMembers ⟨"Team", "g2", ["alice", "bob"]⟩ bob.id).take 1) st0).groups
      = st0.groups ++ rowsFor "g2" "Team"
           ((finalMembers ⟨"Team", "g2", ["alice", "bob"]⟩ bob.id).take 1) st0 :=
  ⟨(group_create_partial_commit bob ⟨"Team", "g2", ["alice", "bob"]⟩ st0
      (fun i => i == 0) 1 (by decide) (by decide) (by decide) (by decide) (by decide)).1,
   (group_create_partial_commit bob ⟨"Team", "g2", ["alice", "bob"]⟩ st0
      (fun i => i == 0) 1 (by decide) (by decide) (by decide) (by decide) (by decide)).2.1⟩

theorem groupSortDesc_nil : groupSortDesc [] = [] := rfl

/-- C9: the store-level list-by-member and list-by-group operations
fail with NotFound on an empty result set, yet the API callers turn
that into a 200 success with an empty list: `GroupHandler.List` maps
the store NotFound to `200 []`, and `QuoteHandler.List` returns
`200 []` on an empty quote table; neither surfaces NotFound to the
client. -/
theorem read_many_empty_is_success (u : User) (p : ListQuotesParams)
    (gid : String) (st : StoreState) :
    (st.groups.filter (fun g => g.memberID == u.id) = [] →
      groupsGetByMemberID st u.id = .error ⟨.notFound, "No groups found for member"⟩
      ∧ (groupListHandler (some u) st).1 = .success 200 [])
    ∧ (st.groups.filter (fun g => g.groupID == gid) = [] →
      groupsGetByGroupID st gid = .error ⟨.notFound, "No groups found"⟩)
    ∧ (st.quotes = [] → (quoteListHandler (some u) p st).1 = .success 200 []) := by
  refine ⟨?_, ?_, ?_⟩
  · intro h
    have hstore : groupsGetByMemberID st u.id
        = .error ⟨.notFound, "No groups found for member"⟩ := by
      unfold groupsGetByMemberID
      rw [h, groupSortDesc_nil]
      rfl
    refine ⟨hstore, ?_⟩
    unfold groupListHandler
    dsimp only
    rw [hstore]
    rfl
  · intro h
    unfold groupsGetByGroupID
    rw [h, groupSortDesc_nil]
    rfl
  · intro h
    unfold quoteListHandler
    rw [quotesList_clamped]
    simp [quotesMatching, quoteSortDesc, h]

/-- C9 witness: in a store with no membership rows and no quotes, both
store-level group reads return NotFound while the group-list and
quote-list handlers answer 200 with an empty list. -/
theorem read_many_empty_is_success_witness :
    (groupsGetByMemberID stEmpty alice.id
        = .error ⟨.notFound, "No groups found for member"⟩
      ∧ (groupListHandler (some alice) stEmpty).1 = .success 200 [])
    ∧ groupsGetByGroupID stEmpty "g1" = .error ⟨.notFound, "No groups found"⟩
    ∧ (quoteListHandler (some alice) ⟨"", 1, 10⟩ stEmpty).1 = .success 200 [] :=
  ⟨(read_many_empty_is_success alice ⟨"", 1, 10⟩ "g1" stEmpty).1 (by decide),
   (read_many_empty_is_success alice ⟨"", 1, 10⟩ "g1" stEmpty).2.1 (by decide),
   (read_many_empty_is_success alice ⟨"", 1, 10⟩ "g1" stEmpty).2.2 (by decide)⟩

/-- A successful store-level row update changes only the row's name
and updated timestamp: id, group key, member id and creation time are
preserved, as are the other tables. -/
theorem groupsUpdateRow_preserves (st : StoreState) (g : Group) (st' : StoreState)
    (h : groupsUpdateRow st g = .ok st') :
    st'.groups.map groupProj = st.groups.map groupProj
    ∧ st'.users = st.users ∧ st'.quotes = st.quotes := by
  unfold groupsUpdateRow at h
  split at h
  · cases h
    refine ⟨?_, rfl, rfl⟩
    rw [List.map_map]
    apply List.map_congr_left
    intro x hx
    by_cases hxe : (x.id == g.id) = true <;> simp [groupProj, hxe, Function.comp]
  · cases h

theorem updateRowsLoop_preserves (nm : String) (rows : List Group) (st : StoreState) :
    ((updateRowsLoop nm rows st).2).groups.map groupProj = st.groups.map groupProj
    ∧ ((updateRowsLoop nm rows st).2).users = st.users
    ∧ ((updateRowsLoop nm rows st).2).quotes = st.quotes := by
  induction rows generalizing st with
  | nil => exact ⟨rfl, rfl, rfl⟩
  | cons g rest ih =>
    unfold updateRowsLoop
    cases hg : groupsUpdateRow st { g with name := nm } with
    | error e => exact ⟨rfl, rfl, rfl⟩
    | ok st' =>
      obtain ⟨h1, h2, h3⟩ := groupsUpdateRow_preserves st _ st' hg
      obtain ⟨i1, i2, i3⟩ := ih st'
      exact ⟨i1.trans h1, i2.trans h2, i3.trans h3⟩

/-- C10: a group PATCH never changes the membership-row set — for
every request (any members list, any acting user, any state), the rows'
ids, group keys, member ids and creation times after the handler are
exactly those before; the members list is only validated, never
applied, and the users and quotes tables are untouched. -/
theorem group_update_preserves_membership (user? : Option User) (gid : String)
    (req : UpdateGroupRequest) (st : StoreState) :
    ((groupUpdateHandler user? gid req st).2).groups.map groupProj
      = st.groups.map groupProj
    ∧ ((groupUpdateHandler user? gid req st).2).users = st.users
    ∧ ((groupUpdateHandler user? gid req st).2).quotes = st.quotes := by
  unfold groupUpdateHandler
  cases user? with
  | none => exact ⟨rfl, rfl, rfl⟩
  | some user =>
    dsimp only
    split
    · exact ⟨rfl, rfl, rfl⟩
    split
    · exact ⟨rfl, rfl, rfl⟩
    cases hG : groupsGetByGroupID st gid with
    | error e =>
      dsimp only
      split <;> exact ⟨rfl, rfl, rfl⟩
    | ok rows =>
      dsimp only
      split
      · exact ⟨rfl, rfl, rfl⟩
      cases hc : checkMembers st req.members with
      | some r => exact ⟨rfl, rfl, rfl⟩
      | none =>
        dsimp only
        cases hl : updateRowsLoop req.name rows st with
        | mk o st' =>
          have hp := updateRowsLoop_preserves req.name rows st
          rw [hl] at hp
          cases o with
          | some e => exact hp
          | none =>
            dsimp only
            cases hG2 : groupsGetByGroupID st' gid <;> exact hp

end Reminiscer
